import Mathlib

/-
Verification of the AI-Car-Health-Monitor diagnosis engine and training
pipeline (src/app_main.py), as a shallow embedding in Lean 4.

A sensor reading is a partial mapping from metric name to a numeric value
(Python dict access data[k] raises KeyError exactly when the mapping is
undefined at k, modelled here by Option). Machine numbers are modelled as
rationals; all thresholds and the constants of the program are exactly
representable.
-/

/-- A sensor reading: metric name to numeric value, absent keys give none
(a Python dict of numbers). -/
abbrev Reading := String → Option ℚ

/-- Build a reading from an association list (first binding wins). -/
def mkReading (l : List (String × ℚ)) : Reading :=
  fun k => (l.find? (fun kv => kv.1 == k)).map (fun kv => kv.2)

/-- Value of key k in reading d, with default used by dict.get(k, default). -/
def getQ (d : Reading) (k : String) (dflt : ℚ) : ℚ := (d k).getD dflt

/-- One threshold rule of check_custom_rules: the key whose dict access can
raise KeyError, the boolean condition on the reading, and the alert label
appended when the condition holds. -/
structure Rule where
  req : String
  cond : Reading → Bool
  label : String

/-- The fixed threshold table of check_custom_rules (src/app_main.py lines
165-184), one entry per if-statement, in textual order. The rear brake pad
wear is read with dict.get and default 3, so it is not a required key. -/
def rules : List Rule := [
  ⟨"odometer_km", fun d => decide (getQ d "odometer_km" 0 > 300000),
    "Maintenance Due / High Mileage Warning"⟩,
  ⟨"engine_temp_c", fun d => decide (getQ d "engine_temp_c" 0 > 110),
    "Engine Overheating"⟩,
  ⟨"battery_voltage_v", fun d => decide (getQ d "battery_voltage_v" 0 < 12),
    "Battery Failure"⟩,
  ⟨"oil_pressure_kpa", fun d => decide (getQ d "oil_pressure_kpa" 0 < 150),
    "Low Oil Pressure Warning"⟩,
  ⟨"brake_pad_wear_mm_front", fun d =>
      (decide (getQ d "brake_pad_wear_mm_front" 0 < 3) ||
       decide (getQ d "brake_pad_wear_mm_rear" 3 < 3)),
    "Brake Pads Critically Worn"⟩,
  ⟨"suspension_health_pct", fun d => decide (getQ d "suspension_health_pct" 0 < 40),
    "Suspension Failure Risk"⟩,
  ⟨"tire_pressure_psi_fl", fun d => decide (getQ d "tire_pressure_psi_fl" 0 < 20),
    "Low Tire Pressure"⟩,
  ⟨"coolant_level_pct", fun d => decide (getQ d "coolant_level_pct" 0 < 30),
    "Coolant Critically Low"⟩,
  ⟨"brake_fluid_level_pct", fun d => decide (getQ d "brake_fluid_level_pct" 0 < 20),
    "Brake Fluid Critically Low"⟩,
  ⟨"transmission_fluid_temp_c", fun d => decide (getQ d "transmission_fluid_temp_c" 0 > 110),
    "Transmission Overheating"⟩]

/-- Sequential evaluation of the rule table under the single try/except of
check_custom_rules: when the required key of a rule is absent (KeyError),
evaluation stops and the alerts accumulated so far are returned (the except
branch does pass and the function returns the partial list). -/
def checkAux (d : Reading) : List Rule → List String
  | [] => []
  | r :: rs =>
    match d r.req with
    | none => []
    | some _ => (if r.cond d then [r.label] else []) ++ checkAux d rs

/-- check_custom_rules (src/app_main.py lines 161-188): return the list of
rule-based failures triggered by the input data, with the whole rule block
guarded by one try/except that swallows the first KeyError. -/
def check_custom_rules (d : Reading) : List String := checkAux d rules

/-- The fusion step of the Detailed Analysis page (src/app_main.py lines
761-763): all_alerts = set(rule_alerts); the predicted label is added exactly
when it is not the literal string None or Normal and confidence >= 50. -/
def fuse (rule_alerts : List String) (predicted_label : String) (confidence : ℚ) :
    Finset String :=
  if predicted_label ∉ ["None", "Normal"] ∧ confidence ≥ 50 then
    insert predicted_label rule_alerts.toFinset
  else rule_alerts.toFinset

/-- The trained classifier: a class index and a probability row per scaled
feature vector (model.predict and model.predict_proba on one row). -/
structure MLModel where
  predictIdx : List ℚ → Nat
  predictProbaRow : List ℚ → List ℚ

/-- The fitted scaler: scaler.transform on one row. -/
structure FittedScaler where
  transform : List ℚ → List ℚ

/-- The fitted label encoder: encoder.inverse_transform on one class index. -/
structure FittedEncoder where
  inverseTransform : Nat → String

/-- The four artifacts loaded by load_model_assets: each is None when its
pickle file is absent (the except branch returns None, None, None, None). -/
structure Artifacts where
  model : Option MLModel
  scaler : Option FittedScaler
  encoder : Option FittedEncoder
  training_columns : Option (List String)

/-- The feature-engineering step of predict_failure (src/app_main.py lines
196-205): the one-row dataframe gains the two derived columns; each is
computed from its source columns when they exist and set to 0.0 when the
column access raises (the try/except per derived feature). -/
def engineerFeatures (d : Reading) : Reading := fun k =>
  if k = "temp_pressure_ratio" then
    some (match d "engine_temp_c", d "oil_pressure_kpa" with
          | some t, some p => t / (p + 1 / 1000000)
          | _, _ => 0)
  else if k = "total_brake_wear" then
    some (match d "brake_pad_wear_mm_front", d "brake_pad_wear_mm_rear" with
          | some f, some r => f + r
          | _, _ => 0)
  else d k

/-- input_df.reindex(columns=training_columns, fill_value=0) on a one-row
dataframe (src/app_main.py line 208): the row in training-column order,
absent columns filled with 0, extra columns dropped. -/
def reindex (d : Reading) (cols : List String) : List ℚ :=
  cols.map (fun c => (d c).getD 0)

/-- prediction_proba.max() over one probability row (0 on an empty row). -/
def probaMax (l : List ℚ) : ℚ := l.foldr max 0

/-- predict_failure (src/app_main.py lines 190-218). When any artifact is
falsy (None, or an empty training-column list), returns the degraded triple;
otherwise engineers features, reindexes, scales, predicts and decodes, with
confidence the maximal probability times 100. -/
def predict_failure (a : Artifacts) (input_data : Reading) :
    String × ℚ × Option (List ℚ) :=
  match a.model, a.scaler, a.encoder, a.training_columns with
  | some m, some s, some e, some cols =>
    if cols.isEmpty then ("Model not loaded", 0, none)
    else
      let input_scaled := s.transform (reindex (engineerFeatures input_data) cols)
      let proba := m.predictProbaRow input_scaled
      (e.inverseTransform (m.predictIdx input_scaled), probaMax proba * 100, some proba)
  | _, _, _, _ => ("Model not loaded", 0, none)

/-- An encoded training row: feature values and the integer label code. -/
abbrev NRow := List ℚ × Nat

/-- A deterministic pseudo-random generator standing for the seeded numpy
random state behind sklearn resample and train_test_split (glibc-style
linear congruential step). -/
def lcg (s : Nat) : Nat := (1103515245 * s + 12345) % 2147483648

/-- sklearn.utils.resample(l, replace=True, n_samples=n, random_state=seed):
n rows drawn with replacement from l, deterministically from the seed. -/
def resample (l : List NRow) (n seed : Nat) : List NRow :=
  (List.range n).map (fun i => l.getD (lcg (seed + i) % l.length) ([], 0))

/-- Step 3 of the training script (src/app_main.py lines 996-1007): split the
encoded rows into failures (label code different from the code of the None
class) and normal rows (label code equal to it), upsample the normal rows
with replacement to len(failures) // 2 with random_state=42, concatenate. -/
def balanceStep (rows : List NRow) (normalId : Nat) : List NRow :=
  let df_failures := rows.filter (fun r => decide (r.2 ≠ normalId))
  let df_normal := rows.filter (fun r => decide (r.2 = normalId))
  let df_normal_upsampled := resample df_normal (df_failures.length / 2) 42
  df_failures ++ df_normal_upsampled

/-- A raw dataset row: the sensor feature columns (value absent when the CSV
cell is NaN) and the failure_type label (absent when NaN). vehicle_id and
timestamp are dropped before training and are not modelled. -/
abbrev RawRow := List (String × Option ℚ) × Option String

/-- Step 2 cleaning (src/app_main.py lines 982-984): fill a missing
failure_type with the string None, then drop every row that still has a
missing value in any column. -/
def cleanRows (rows : List RawRow) : List (List (String × ℚ) × String) :=
  rows.filterMap (fun r =>
    if r.1.all (fun kv => kv.2.isSome) then
      some (r.1.filterMap (fun kv => kv.2.map (fun v => (kv.1, v))), r.2.getD "None")
    else none)

/-- Column lookup in a cleaned row (0 when absent; after cleaning the source
columns are always present). -/
def lookupD (fs : List (String × ℚ)) (k : String) : ℚ :=
  ((fs.find? (fun kv => kv.1 == k)).map (fun kv => kv.2)).getD 0

/-- Step 2 feature engineering (src/app_main.py lines 987-988): append the
two derived columns to a row. -/
def engineerRow (fs : List (String × ℚ)) : List (String × ℚ) :=
  fs ++ [("temp_pressure_ratio",
            lookupD fs "engine_temp_c" / (lookupD fs "oil_pressure_kpa" + 1 / 1000000)),
         ("total_brake_wear",
            lookupD fs "brake_pad_wear_mm_front" + lookupD fs "brake_pad_wear_mm_rear")]

/-- Lexicographic code-point comparison of character lists, the ascending
order numpy sorting uses for the label strings. -/
def lexLe : List Char → List Char → Bool
  | [], _ => true
  | _ :: _, [] => false
  | a :: as, b :: bs =>
    if a.toNat < b.toNat then true
    else if b.toNat < a.toNat then false
    else lexLe as bs

/-- String comparison by code points (ascending numpy sort order). -/
def strLe (a b : String) : Bool := lexLe a.data b.data

/-- LabelEncoder.fit over the label column (src/app_main.py lines 992-993):
the vocabulary is the sorted list of distinct labels. -/
def fitLabelVocab (ys : List String) : List String :=
  (ys.dedup).insertionSort (fun a b => strLe a b)

/-- Step 5 (src/app_main.py lines 1020-1023): stratified 80/20 split with
random_state=42; per class, a seeded rotation then the first fifth to the
test partition. Returns (train, test). -/
def stratSplit (rows : List NRow) (seed : Nat) : List NRow × List NRow :=
  let classes := (rows.map (fun r => r.2)).dedup
  classes.foldl (fun acc c =>
    let cr := rows.filter (fun r => decide (r.2 = c))
    let k := cr.length / 5
    let rot := lcg (seed + c) % (cr.length + 1)
    let perm := cr.drop rot ++ cr.take rot
    (acc.1 ++ perm.drop k, acc.2 ++ perm.take k)) ([], [])

/-- The outputs of the training pipeline the determinism claim quantifies
over: the encoded-label vocabulary, the balanced dataset, the upsampled
normal partition, and the train/test split. -/
structure PipelineOut where
  vocab : List String
  balanced : List NRow
  upsampled : List NRow
  trainPart : List NRow
  testPart : List NRow

/-- The training script, Steps 2 to 5 (src/app_main.py lines 981-1023):
clean, engineer, encode, balance with random_state=42, split with
random_state=42. Scaling is a deterministic per-column transform that does
not move rows between partitions and is omitted from the modelled outputs;
the XGBoost fit consumes the split with its own fixed random_state=42. -/
def trainPipelineCore (raw : List RawRow) : PipelineOut :=
  let cleaned := cleanRows raw
  let engineered := cleaned.map (fun rc => (engineerRow rc.1, rc.2))
  let vocab := fitLabelVocab (engineered.map (fun rc => rc.2))
  let encoded : List NRow :=
    engineered.map (fun rc => (rc.1.map (fun kv => kv.2), vocab.indexOf rc.2))
  let normalId := vocab.indexOf "None"
  let df_failures := encoded.filter (fun r => decide (r.2 ≠ normalId))
  let df_normal := encoded.filter (fun r => decide (r.2 = normalId))
  let df_normal_upsampled := resample df_normal (df_failures.length / 2) 42
  let df_balanced := df_failures ++ df_normal_upsampled
  let split := stratSplit df_balanced 42
  ⟨vocab, df_balanced, df_normal_upsampled, split.1, split.2⟩

/-- The all-thresholds reading quoted by the spec (battery 11.5 volts written
as the exact rational 23/2); the rear brake pad key is absent and defaults
to 3 inside the brake rule. -/
def allAlertsReading : Reading := mkReading [
  ("odometer_km", 350000), ("engine_temp_c", 115), ("battery_voltage_v", mkRat 23 2),
  ("oil_pressure_kpa", 100), ("brake_pad_wear_mm_front", 2), ("suspension_health_pct", 30),
  ("tire_pressure_psi_fl", 15), ("coolant_level_pct", 20), ("brake_fluid_level_pct", 10),
  ("transmission_fluid_temp_c", 120)]

/-- The no-threshold reading quoted by the spec (battery 13.5 volts written
as the exact rational 27/2). -/
def noAlertReading : Reading := mkReading [
  ("odometer_km", 50000), ("engine_temp_c", 90), ("battery_voltage_v", mkRat 27 2),
  ("oil_pressure_kpa", 300), ("brake_pad_wear_mm_front", 8), ("brake_pad_wear_mm_rear", 8),
  ("suspension_health_pct", 90), ("tire_pressure_psi_fl", 32), ("coolant_level_pct", 95),
  ("brake_fluid_level_pct", 95), ("transmission_fluid_temp_c", 85)]

/-- A reading sitting exactly on the odometer, engine-temperature and
battery-voltage thresholds, all other sensors at safe values. -/
def boundaryReading : Reading := mkReading [
  ("odometer_km", 300000), ("engine_temp_c", 110), ("battery_voltage_v", 12),
  ("oil_pressure_kpa", 300), ("brake_pad_wear_mm_front", 8), ("brake_pad_wear_mm_rear", 8),
  ("suspension_health_pct", 90), ("tire_pressure_psi_fl", 32), ("coolant_level_pct", 95),
  ("brake_fluid_level_pct", 95), ("transmission_fluid_temp_c", 85)]

/-- A reading whose battery voltage satisfies the battery rule (11 < 12) but
whose engine_temp_c key is absent, so the dict access of the engine rule
raises before the battery rule runs. -/
def missingEngineReading : Reading :=
  mkReading [("odometer_km", 50000), ("battery_voltage_v", 11)]

/-- A reading that triggers the odometer rule and then loses the engine
temperature key: the code keeps the already-appended first alert. -/
def triggeredThenMissingReading : Reading :=
  mkReading [("odometer_km", 350000)]

/-- Like triggeredThenMissingReading but with the battery rule also
satisfiable (11 < 12): the returned list is a strict prefix of the full
evaluation, neither empty nor complete. -/
def prefixReading : Reading :=
  mkReading [("odometer_km", 350000), ("battery_voltage_v", 11)]

/-- A small raw dataset for concrete runs of the pipeline: rows for two
failure classes, an unlabeled row that the cleaning step relabels None, a
labeled normal row, and a row with a missing sensor cell that the cleaning
step drops. -/
def demoRaw : List RawRow :=
  [([("engine_temp_c", some 100), ("oil_pressure_kpa", some 200)], some "Engine Overheating"),
   ([("engine_temp_c", some 90), ("oil_pressure_kpa", some 250)], none),
   ([("engine_temp_c", some 95), ("oil_pressure_kpa", some 240)], some "None"),
   ([("engine_temp_c", some 101), ("oil_pressure_kpa", some 210)], some "Battery Failure"),
   ([("engine_temp_c", some 102), ("oil_pressure_kpa", none)], some "None")]

theorem checkAux_all_present (d : Reading) :
    ∀ rs : List Rule, (∀ r ∈ rs, (d r.req).isSome) →
      checkAux d rs = (rs.filter (fun r => r.cond d)).map (fun r => r.label)
  | [], _ => rfl
  | r :: rs, h => by
      obtain ⟨v, hv⟩ := Option.isSome_iff_exists.mp (h r (List.mem_cons_self r rs))
      have ih := checkAux_all_present d rs (fun r' hr' => h r' (List.mem_cons_of_mem r hr'))
      by_cases hc : r.cond d = true
      · simp [checkAux, hv, hc, ih, List.filter_cons]
      · simp [checkAux, hv, hc, ih, List.filter_cons]

theorem checkAux_sublist (d : Reading) :
    ∀ rs : List Rule, (checkAux d rs).Sublist (rs.map (fun r => r.label))
  | [] => List.Sublist.refl []
  | r :: rs => by
      have ih := checkAux_sublist d rs
      cases hv : d r.req with
      | none => simp [checkAux, hv]
      | some v =>
        by_cases hc : r.cond d = true
        · simpa [checkAux, hv, hc] using ih.cons₂ r.label
        · simpa [checkAux, hv, hc] using ih.cons r.label

theorem checkAux_abort (d : Reading) :
    ∀ (rs1 : List Rule) (r : Rule) (rs2 : List Rule),
      (∀ r' ∈ rs1, (d r'.req).isSome) → d r.req = none →
      checkAux d (rs1 ++ r :: rs2) = (rs1.filter (fun r => r.cond d)).map (fun r => r.label)
  | [], r, rs2, _, hmiss => by simp [checkAux, hmiss]
  | r1 :: rs1, r, rs2, h, hmiss => by
      obtain ⟨v, hv⟩ := Option.isSome_iff_exists.mp (h r1 (List.mem_cons_self r1 rs1))
      have ih := checkAux_abort d rs1 r rs2 (fun r' hr' => h r' (List.mem_cons_of_mem r1 hr')) hmiss
      by_cases hc : r1.cond d = true
      · simp [checkAux, hv, hc, ih, List.filter_cons]
      · simp [checkAux, hv, hc, ih, List.filter_cons]

theorem labels_nodup : (rules.map (fun r => r.label)).Nodup := by decide

theorem check_custom_rules_nodup (d : Reading) : (check_custom_rules d).Nodup :=
  (checkAux_sublist d rules).nodup labels_nodup

theorem mem_labels_of_mem_check (d : Reading) (x : String)
    (hx : x ∈ check_custom_rules d) : x ∈ rules.map (fun r => r.label) :=
  (checkAux_sublist d rules).mem hx

theorem resample_length (l : List NRow) (n seed : Nat) : (resample l n seed).length = n := by
  simp [resample]

theorem mem_of_mem_resample (l : List NRow) (n seed : Nat) (hl : l ≠ [])
    (x : NRow) (hx : x ∈ resample l n seed) : x ∈ l := by
  simp only [resample, List.mem_map, List.mem_range] at hx
  obtain ⟨i, _, hi⟩ := hx
  have hlen : 0 < l.length := List.length_pos.mpr hl
  have hlt : lcg (seed + i) % l.length < l.length := Nat.mod_lt _ hlen
  rw [← hi, List.getD_eq_getElem l _ hlt]
  exact List.getElem_mem hlt

/-- C1: on a reading with numeric values for every required sensor key,
check_custom_rules returns exactly the labels of the threshold-table rules
whose strict condition holds, each at most once; the quoted all-thresholds
reading yields all ten labels exactly once, the quoted no-threshold reading
yields the empty set, and a reading sitting exactly on the odometer, engine
temperature and battery thresholds triggers none of those alerts. -/
theorem claim_C1_rule_eval_exact :
    (∀ d : Reading, (∀ r ∈ rules, (d r.req).isSome) →
      check_custom_rules d = (rules.filter (fun r => r.cond d)).map (fun r => r.label) ∧
      (check_custom_rules d).Nodup) ∧
    check_custom_rules allAlertsReading =
      ["Maintenance Due / High Mileage Warning", "Engine Overheating", "Battery Failure",
       "Low Oil Pressure Warning", "Brake Pads Critically Worn", "Suspension Failure Risk",
       "Low Tire Pressure", "Coolant Critically Low", "Brake Fluid Critically Low",
       "Transmission Overheating"] ∧
    check_custom_rules noAlertReading = [] ∧
    "Maintenance Due / High Mileage Warning" ∉ check_custom_rules boundaryReading ∧
    "Engine Overheating" ∉ check_custom_rules boundaryReading ∧
    "Battery Failure" ∉ check_custom_rules boundaryReading :=
  ⟨fun d h => ⟨checkAux_all_present d rules h, check_custom_rules_nodup d⟩,
    by decide, by decide, by decide, by decide, by decide⟩

/-- C1 witness: the all-present hypothesis discharged at the quoted
all-thresholds reading. -/
theorem claim_C1_witness :
    check_custom_rules allAlertsReading =
      (rules.filter (fun r => r.cond allAlertsReading)).map (fun r => r.label) ∧
    (check_custom_rules allAlertsReading).Nodup :=
  claim_C1_rule_eval_exact.1 allAlertsReading (by decide)

/-- C2: the fused alert set is the rule-alert set with the predicted label
inserted exactly when the label is neither the literal None nor Normal
(case-sensitive) and the confidence is at least 50; otherwise it is the
rule-alert set unchanged, so a label below confidence 50 is never added and
the two sentinel labels are not added even at confidence 100. -/
theorem claim_C2_fusion_policy :
    (∀ (r : List String) (l : String) (c : ℚ),
        l ∉ ["None", "Normal"] → c ≥ 50 → fuse r l c = insert l r.toFinset) ∧
    (∀ (r : List String) (l : String) (c : ℚ),
        l ∈ ["None", "Normal"] ∨ c < 50 → fuse r l c = r.toFinset) ∧
    (∀ (r : List String) (l : String) (c : ℚ) (x : String),
        x ∈ fuse r l c ↔ x ∈ r ∨ (x = l ∧ l ∉ ["None", "Normal"] ∧ c ≥ 50)) ∧
    (∀ r : List String, fuse r "None" 100 = r.toFinset) ∧
    (∀ r : List String, fuse r "Normal" 100 = r.toFinset) := by
  have hbase : ∀ (r : List String) (l : String) (c : ℚ),
      l ∈ ["None", "Normal"] ∨ c < 50 → fuse r l c = r.toFinset := by
    intro r l c h
    rw [fuse, if_neg]
    rintro ⟨hn, hc⟩
    rcases h with h | h
    · exact hn h
    · linarith
  refine ⟨fun r l c h1 h2 => by rw [fuse, if_pos ⟨h1, h2⟩], hbase, ?_,
    fun r => hbase r "None" 100 (Or.inl (by decide)),
    fun r => hbase r "Normal" 100 (Or.inl (by decide))⟩
  intro r l c x
  rw [fuse]
  split_ifs with h
  · simp only [Finset.mem_insert, List.mem_toFinset]
    tauto
  · rw [not_and_or, not_not, not_le] at h
    simp only [List.mem_toFinset]
    constructor
    · exact Or.inl
    · rintro (hx | ⟨rfl, hn, hc⟩)
      · exact hx
      · rcases h with h | h
        · exact absurd h hn
        · linarith

/-- C2 witness: the fusion equations at concrete inputs. -/
theorem claim_C2_witness :
    fuse ["Battery Failure"] "Engine Overheating" 75 =
      insert "Engine Overheating" (["Battery Failure"] : List String).toFinset ∧
    fuse ["Battery Failure"] "Engine Overheating" 49 =
      (["Battery Failure"] : List String).toFinset :=
  ⟨claim_C2_fusion_policy.1 ["Battery Failure"] "Engine Overheating" 75 (by decide) (by norm_num),
   claim_C2_fusion_policy.2.1 ["Battery Failure"] "Engine Overheating" 49 (Or.inr (by norm_num))⟩

/-- C3 counterexample: the battery rule condition holds on the reading (11
is below 12) but its alert is not returned, because the engine temperature
key is absent and the single try/except stops the whole rule block; the
claimed skip-one-rule-and-continue behavior fails on this input. -/
theorem claim_C3_cex :
    missingEngineReading "engine_temp_c" = none ∧
    missingEngineReading "battery_voltage_v" = some 11 ∧
    (rules.get ⟨2, by decide⟩).cond missingEngineReading = true ∧
    (rules.get ⟨2, by decide⟩).label = "Battery Failure" ∧
    "Battery Failure" ∉ check_custom_rules missingEngineReading ∧
    check_custom_rules missingEngineReading = [] := by decide

/-- C3 amended: check_custom_rules is a total function (it never raises),
but on a reading with a missing required key it stops at the first rule
whose key access fails and returns only the alerts of the earlier triggered
rules, skipping every remaining rule rather than only the failing one. -/
theorem claim_C3_abort_behavior :
    (∀ (d : Reading) (rs1 : List Rule) (r : Rule) (rs2 : List Rule),
        rules = rs1 ++ r :: rs2 → (∀ r' ∈ rs1, (d r'.req).isSome) → d r.req = none →
        check_custom_rules d = (rs1.filter (fun r => r.cond d)).map (fun r => r.label)) ∧
    check_custom_rules missingEngineReading = [] := by
  refine ⟨fun d rs1 r rs2 hsplit hpre hmiss => ?_, by decide⟩
  rw [check_custom_rules, hsplit]
  exact checkAux_abort d rs1 r rs2 hpre hmiss

/-- C3 witness: the abort decomposition discharged at the concrete reading
missing its engine temperature key. -/
theorem claim_C3_witness :
    check_custom_rules missingEngineReading =
      ((rules.take 1).filter (fun r => r.cond missingEngineReading)).map (fun r => r.label) :=
  claim_C3_abort_behavior.1 missingEngineReading (rules.take 1)
    (rules.get ⟨1, by decide⟩) (rules.drop 2) rfl (by decide) (by decide)

/-- C4 counterexample: with the odometer rule already triggered and the
engine temperature key absent, check_custom_rules returns the first alert
rather than the empty set: missing keys do not erase partial results. -/
theorem claim_C4_cex :
    triggeredThenMissingReading "engine_temp_c" = none ∧
    check_custom_rules triggeredThenMissingReading =
      ["Maintenance Due / High Mileage Warning"] ∧
    check_custom_rules triggeredThenMissingReading ≠ [] := by decide

/-- C4 amended: a missing required key aborts the evaluation at the first
failing access, keeping the alerts of the rules already evaluated; the
result is empty exactly when no rule before the failing one triggered, not
unconditionally. -/
theorem claim_C4_soft_fail :
    (∀ (d : Reading) (rs1 : List Rule) (r : Rule) (rs2 : List Rule),
        rules = rs1 ++ r :: rs2 → (∀ r' ∈ rs1, (d r'.req).isSome) → d r.req = none →
        (check_custom_rules d = [] ↔ ∀ r' ∈ rs1, r'.cond d = false)) ∧
    check_custom_rules triggeredThenMissingReading ≠ [] := by
  refine ⟨fun d rs1 r rs2 hsplit hpre hmiss => ?_, by decide⟩
  rw [check_custom_rules, hsplit, checkAux_abort d rs1 r rs2 hpre hmiss]
  simp [List.map_eq_nil_iff, List.filter_eq_nil_iff]

/-- C4 witness: the emptiness characterization discharged at the concrete
reading whose odometer rule triggers before the engine key is missed. -/
theorem claim_C4_witness :
    check_custom_rules triggeredThenMissingReading = [] ↔
      ∀ r' ∈ rules.take 1, r'.cond triggeredThenMissingReading = false :=
  claim_C4_soft_fail.1 triggeredThenMissingReading (rules.take 1)
    (rules.get ⟨1, by decide⟩) (rules.drop 2) rfl (by decide) (by decide)

/-- C10: every result of check_custom_rules is a sublist of the fixed
ten-label list in its fixed textual order (so only those labels, each at
most once); when the first failing key access is at rule n, the result is
exactly the triggered prefix of the first n rules, as the concrete reading
shows: neither the full fail-open evaluation nor always the empty set. -/
theorem claim_C10_partial_results :
    rules.map (fun r => r.label) =
      ["Maintenance Due / High Mileage Warning", "Engine Overheating", "Battery Failure",
       "Low Oil Pressure Warning", "Brake Pads Critically Worn", "Suspension Failure Risk",
       "Low Tire Pressure", "Coolant Critically Low", "Brake Fluid Critically Low",
       "Transmission Overheating"] ∧
    (∀ d : Reading, (check_custom_rules d).Sublist (rules.map (fun r => r.label))) ∧
    (∀ d : Reading, (check_custom_rules d).Nodup) ∧
    (∀ (d : Reading) (n : Nat) (hn : n < rules.length),
        (∀ r ∈ rules.take n, (d r.req).isSome) → d rules[n].req = none →
        check_custom_rules d =
          ((rules.take n).filter (fun r => r.cond d)).map (fun r => r.label)) ∧
    check_custom_rules prefixReading = ["Maintenance Due / High Mileage Warning"] ∧
    (rules.get ⟨2, by decide⟩).cond prefixReading = true ∧
    "Battery Failure" ∉ check_custom_rules prefixReading := by
  refine ⟨by decide, fun d => checkAux_sublist d rules, check_custom_rules_nodup,
    fun d n hn hpre hmiss => ?_, by decide, by decide, by decide⟩
  have hsplit : rules = rules.take n ++ rules[n] :: rules.drop (n + 1) := by
    rw [← List.drop_eq_getElem_cons hn, List.take_append_drop]
  conv_lhs => rw [check_custom_rules, hsplit]
  exact checkAux_abort d _ _ _ hpre hmiss

/-- C10 witness: the prefix characterization discharged at the concrete
reading missing its engine temperature key after a triggered odometer rule. -/
theorem claim_C10_witness :
    check_custom_rules prefixReading =
      ((rules.take 1).filter (fun r => r.cond prefixReading)).map (fun r => r.label) :=
  claim_C10_partial_results.2.2.2.1 prefixReading 1 (by decide) (by decide) (by decide)

/-- C5: when any of the four artifacts is absent, predict_failure returns
its degraded Model-not-loaded triple without raising (it is a total
function), and the diagnosis still completes in rule-only mode: fusing that
degraded prediction with the rule alerts leaves the rule-alert set
unchanged. -/
theorem claim_C5_model_unavailable :
    (∀ (a : Artifacts) (d : Reading),
        a.model = none ∨ a.scaler = none ∨ a.encoder = none ∨ a.training_columns = none →
        predict_failure a d = ("Model not loaded", 0, none)) ∧
    (∀ (a : Artifacts) (d : Reading),
        a.model = none ∨ a.scaler = none ∨ a.encoder = none ∨ a.training_columns = none →
        fuse (check_custom_rules d) (predict_failure a d).1 (predict_failure a d).2.1 =
          (check_custom_rules d).toFinset) ∧
    predict_failure ⟨none, none, none, none⟩ noAlertReading = ("Model not loaded", 0, none) := by
  have hdeg : ∀ (a : Artifacts) (d : Reading),
      a.model = none ∨ a.scaler = none ∨ a.encoder = none ∨ a.training_columns = none →
      predict_failure a d = ("Model not loaded", 0, none) := by
    rintro ⟨m, s, e, tc⟩ d h
    cases m <;> cases s <;> cases e <;> cases tc <;> simp_all [predict_failure]
  have hfuse : ∀ rs : List String, fuse rs "Model not loaded" 0 = rs.toFinset := by
    intro rs
    rw [fuse, if_neg]
    rintro ⟨-, hc⟩
    norm_num at hc
  refine ⟨hdeg, fun a d h => ?_, hdeg ⟨none, none, none, none⟩ noAlertReading (Or.inl rfl)⟩
  rw [hdeg a d h]
  exact hfuse (check_custom_rules d)

/-- C5 witness: the degraded triple and the unchanged fused set at a
concrete artifact record missing only its scaler. -/
theorem claim_C5_witness :
    predict_failure ⟨some ⟨fun _ => 0, fun _ => []⟩, none,
        some ⟨fun _ => "None"⟩, some ["engine_temp_c"]⟩ noAlertReading =
      ("Model not loaded", 0, none) :=
  claim_C5_model_unavailable.1 _ noAlertReading (Or.inr (Or.inl rfl))

/-- C9: with any artifact equal to None, predict_failure returns exactly the
triple (Model not loaded, 0, None); since the returned confidence 0 is below
the fusion threshold 50, the fused alert set in degraded mode equals the
rule-alert set, and the string Model not loaded is never an element of the
fused set (the rule alerts are drawn from the ten fixed labels only). -/
theorem claim_C9_degraded_fusion :
    (∀ (a : Artifacts) (d : Reading),
        a.model = none ∨ a.scaler = none ∨ a.encoder = none ∨ a.training_columns = none →
        predict_failure a d = ("Model not loaded", 0, none) ∧
        fuse (check_custom_rules d) "Model not loaded" 0 = (check_custom_rules d).toFinset ∧
        "Model not loaded" ∉ fuse (check_custom_rules d) "Model not loaded" 0) ∧
    ((0 : ℚ) < 50) := by
  have hfuse : ∀ rs : List String, fuse rs "Model not loaded" 0 = rs.toFinset := by
    intro rs
    rw [fuse, if_neg]
    rintro ⟨-, hc⟩
    norm_num at hc
  refine ⟨fun a d h => ⟨?_, hfuse _, ?_⟩, by norm_num⟩
  · obtain ⟨m, s, e, tc⟩ := a
    cases m <;> cases s <;> cases e <;> cases tc <;> simp_all [predict_failure]
  · rw [hfuse, List.mem_toFinset]
    intro hmem
    have := mem_labels_of_mem_check d _ hmem
    revert this
    decide

/-- C9 witness: the degraded-mode conjunction discharged with all four
artifacts absent at the quoted no-threshold reading. -/
theorem claim_C9_witness :
    predict_failure ⟨none, none, none, none⟩ noAlertReading = ("Model not loaded", 0, none) ∧
    fuse (check_custom_rules noAlertReading) "Model not loaded" 0 =
      (check_custom_rules noAlertReading).toFinset ∧
    "Model not loaded" ∉ fuse (check_custom_rules noAlertReading) "Model not loaded" 0 :=
  claim_C9_degraded_fusion.1 ⟨none, none, none, none⟩ noAlertReading (Or.inl rfl)

/-- C6: in predict_failure the derived column temp_pressure_ratio is
engine_temp_c divided by oil_pressure_kpa plus 1e-6 and total_brake_wear is
the sum of the two brake pad wears, each falling back to 0.0 when a source
column is absent; the feature row is then reindexed to exactly the
training-column order, position i holding the value of column i with 0 for
an absent column and every extra column dropped, and the loaded branch of
predict_failure consumes exactly this reindexed vector. -/
theorem claim_C6_features_and_reindex :
    (∀ (d : Reading) (t p : ℚ), d "engine_temp_c" = some t → d "oil_pressure_kpa" = some p →
        engineerFeatures d "temp_pressure_ratio" = some (t / (p + 1 / 1000000))) ∧
    (∀ d : Reading, d "engine_temp_c" = none ∨ d "oil_pressure_kpa" = none →
        engineerFeatures d "temp_pressure_ratio" = some 0) ∧
    (∀ (d : Reading) (f r : ℚ),
        d "brake_pad_wear_mm_front" = some f → d "brake_pad_wear_mm_rear" = some r →
        engineerFeatures d "total_brake_wear" = some (f + r)) ∧
    (∀ d : Reading, d "brake_pad_wear_mm_front" = none ∨ d "brake_pad_wear_mm_rear" = none →
        engineerFeatures d "total_brake_wear" = some 0) ∧
    (∀ (d : Reading) (cols : List String), (reindex d cols).length = cols.length) ∧
    (∀ (d : Reading) (cols : List String) (i : Nat),
        (reindex d cols)[i]? = cols[i]?.map (fun c => (d c).getD 0)) ∧
    (∀ (m : MLModel) (s : FittedScaler) (e : FittedEncoder) (cols : List String) (d : Reading),
        cols.isEmpty = false →
        predict_failure ⟨some m, some s, some e, some cols⟩ d =
          (e.inverseTransform (m.predictIdx (s.transform (reindex (engineerFeatures d) cols))),
           probaMax (m.predictProbaRow (s.transform (reindex (engineerFeatures d) cols))) * 100,
           some (m.predictProbaRow (s.transform (reindex (engineerFeatures d) cols))))) ∧
    reindex (mkReading [("engine_temp_c", 100), ("extra_col", 7)])
        ["engine_temp_c", "odometer_km"] = [100, 0] := by
  refine ⟨fun d t p ht hp => by simp [engineerFeatures, ht, hp],
    fun d h => ?_,
    fun d f r hf hr => by simp [engineerFeatures, hf, hr],
    fun d h => ?_,
    fun d cols => by simp [reindex],
    fun d cols i => by simp [reindex, List.getElem?_map],
    fun m s e cols d hcols => by simp [predict_failure, hcols],
    by decide⟩
  · rcases h with h | h
    · simp [engineerFeatures, h]
    · cases ht : d "engine_temp_c" <;> simp [engineerFeatures, h, ht]
  · rcases h with h | h
    · simp [engineerFeatures, h]
    · cases hf : d "brake_pad_wear_mm_front" <;> simp [engineerFeatures, h, hf]

/-- C6 witness: the derived-feature equations discharged at concrete
readings with the source columns present and absent. -/
theorem claim_C6_witness :
    engineerFeatures (mkReading [("engine_temp_c", 100), ("oil_pressure_kpa", 200)])
        "temp_pressure_ratio" = some ((100 : ℚ) / (200 + 1 / 1000000)) ∧
    engineerFeatures (mkReading [("engine_temp_c", 100)]) "temp_pressure_ratio" = some 0 ∧
    engineerFeatures (mkReading [("brake_pad_wear_mm_front", 2)]) "total_brake_wear" = some 0 :=
  ⟨claim_C6_features_and_reindex.1 _ 100 200 rfl rfl,
   claim_C6_features_and_reindex.2.1 _ (Or.inr rfl),
   claim_C6_features_and_reindex.2.2.2.1 _ (Or.inr rfl)⟩

/-- C7: the balancing step partitions the encoded rows into failures (label
code different from the normal code) and normal rows, upsamples the normal
partition with replacement to exactly half the failure count rounded down,
and concatenates, so the balanced total is the failure count plus its half
and the normal rows of the balanced set number at most half the failure
rows, every upsampled row coming from the normal partition. -/
theorem claim_C7_balancing :
    (∀ (rows : List NRow) (normalId : Nat),
        balanceStep rows normalId =
          rows.filter (fun r => decide (r.2 ≠ normalId)) ++
            resample (rows.filter (fun r => decide (r.2 = normalId)))
              ((rows.filter (fun r => decide (r.2 ≠ normalId))).length / 2) 42) ∧
    (∀ (rows : List NRow) (normalId : Nat),
        (balanceStep rows normalId).length =
          (rows.filter (fun r => decide (r.2 ≠ normalId))).length +
            (rows.filter (fun r => decide (r.2 ≠ normalId))).length / 2) ∧
    (∀ (rows : List NRow) (normalId : Nat),
        rows.filter (fun r => decide (r.2 = normalId)) ≠ [] →
        ((balanceStep rows normalId).filter (fun r => decide (r.2 = normalId))).length =
          (rows.filter (fun r => decide (r.2 ≠ normalId))).length / 2 ∧
        2 * ((balanceStep rows normalId).filter (fun r => decide (r.2 = normalId))).length ≤
          ((balanceStep rows normalId).filter (fun r => decide (r.2 ≠ normalId))).length ∧
        ∀ x ∈ resample (rows.filter (fun r => decide (r.2 = normalId)))
            ((rows.filter (fun r => decide (r.2 ≠ normalId))).length / 2) 42,
          x ∈ rows.filter (fun r => decide (r.2 = normalId))) := by
  refine ⟨fun rows normalId => rfl, fun rows normalId => ?_, fun rows normalId hn => ?_⟩
  · simp [balanceStep, resample_length]
  · set failures := rows.filter (fun r => decide (r.2 ≠ normalId)) with hfail
    set normal := rows.filter (fun r => decide (r.2 = normalId)) with hnorm
    set ups := resample normal (failures.length / 2) 42 with hups
    have hmemN : ∀ x ∈ ups, x ∈ normal := fun x hx => mem_of_mem_resample _ _ _ hn x hx
    have hupsAll : ups.filter (fun r => decide (r.2 = normalId)) = ups := by
      rw [List.filter_eq_self]
      intro x hx
      have hxn := hmemN x hx
      rw [hnorm, List.mem_filter] at hxn
      exact hxn.2
    have hfailNone : failures.filter (fun r => decide (r.2 = normalId)) = [] := by
      rw [List.filter_eq_nil_iff]
      intro x hx
      rw [hfail, List.mem_filter] at hx
      simpa using hx.2
    have hfailAll : failures.filter (fun r => decide (r.2 ≠ normalId)) = failures := by
      rw [List.filter_eq_self]
      intro x hx
      rw [hfail, List.mem_filter] at hx
      exact hx.2
    have hupsNone : ups.filter (fun r => decide (r.2 ≠ normalId)) = [] := by
      rw [List.filter_eq_nil_iff]
      intro x hx
      have hxn := hmemN x hx
      rw [hnorm, List.mem_filter] at hxn
      simpa using hxn.2
    have hbal : balanceStep rows normalId = failures ++ ups := rfl
    have hlen : ups.length = failures.length / 2 := resample_length _ _ _
    refine ⟨?_, ?_, hmemN⟩
    · rw [hbal, List.filter_append, hfailNone, hupsAll, List.nil_append, hlen]
    · rw [hbal, List.filter_append, hfailNone, hupsAll, List.nil_append, hlen,
          List.filter_append, hfailAll, hupsNone, List.append_nil]
      omega

/-- C7 witness: the normal-count equation discharged at a concrete encoded
dataset with three failure rows and one normal row. -/
theorem claim_C7_witness :
    ((balanceStep [([1], 0), ([2], 1), ([3], 1), ([4], 1)] 0).filter
        (fun r => decide (r.2 = 0))).length =
      (([([1], 0), ([2], 1), ([3], 1), ([4], 1)] : List NRow).filter
        (fun r => decide (r.2 ≠ 0))).length / 2 :=
  (claim_C7_balancing.2.2 [([1], 0), ([2], 1), ([3], 1), ([4], 1)] 0 (by decide)).1

/-- C8: the modelled pipeline threads the fixed seed 42 through its
upsampling and split steps (and hands the same constant to the tree
training), so it is a function of the input data alone: two runs on equal
raw datasets give equal label vocabularies, equal balanced row counts and
equal class assignments in the upsampled and split partitions; on the
concrete demo dataset the vocabulary is the sorted set of cleaned labels. -/
theorem claim_C8_determinism :
    (∀ d1 d2 : List RawRow, d1 = d2 →
        (trainPipelineCore d1).vocab = (trainPipelineCore d2).vocab ∧
        (trainPipelineCore d1).balanced.length = (trainPipelineCore d2).balanced.length ∧
        (trainPipelineCore d1).upsampled.map (fun r => r.2) =
          (trainPipelineCore d2).upsampled.map (fun r => r.2) ∧
        (trainPipelineCore d1).trainPart.map (fun r => r.2) =
          (trainPipelineCore d2).trainPart.map (fun r => r.2) ∧
        (trainPipelineCore d1).testPart.map (fun r => r.2) =
          (trainPipelineCore d2).testPart.map (fun r => r.2) ∧
        trainPipelineCore d1 = trainPipelineCore d2) ∧
    (trainPipelineCore demoRaw).vocab = ["Battery Failure", "Engine Overheating", "None"] ∧
    (trainPipelineCore demoRaw).balanced.length = 3 := by
  refine ⟨fun d1 d2 h => by rw [h]; exact ⟨rfl, rfl, rfl, rfl, rfl, rfl⟩, by decide, by decide⟩

/-- C8 witness: the run-twice equalities discharged at the concrete demo
dataset. -/
theorem claim_C8_witness :
    (trainPipelineCore demoRaw).vocab = (trainPipelineCore demoRaw).vocab ∧
    (trainPipelineCore demoRaw).balanced.length = (trainPipelineCore demoRaw).balanced.length ∧
    (trainPipelineCore demoRaw).upsampled.map (fun r => r.2) =
      (trainPipelineCore demoRaw).upsampled.map (fun r => r.2) ∧
    (trainPipelineCore demoRaw).trainPart.map (fun r => r.2) =
      (trainPipelineCore demoRaw).trainPart.map (fun r => r.2) ∧
    (trainPipelineCore demoRaw).testPart.map (fun r => r.2) =
      (trainPipelineCore demoRaw).testPart.map (fun r => r.2) ∧
    trainPipelineCore demoRaw = trainPipelineCore demoRaw :=
  claim_C8_determinism.1 demoRaw demoRaw rfl
